import Mathlib

/-!
Shallow embedding of the query/selection coordination layer of the Omnibox
frontend (`src/frontend/src/App.vue`).

The component is a single-threaded, cooperatively scheduled event loop.  We
embed its mutable refs as fields of an explicit `AppState` record and each
event handler as a pure state-transition function translated line by line
from the source.  Asynchronous completions (`await invoke("search", ...)`
resolving or rejecting) are modelled as separate events applied to the state
at arrival time, which is exactly how the single-threaded JS event loop
delivers them.  The two `setTimeout` timers (search debounce, scroll
suppression) are modelled as stored absolute deadlines; a timed event runner
fires a pending timer before processing any event whose timestamp is past the
deadline.

JS numbers that are used only as non-negative integers (`selectedIndex`,
`latestSearchId`, timestamps) are embedded as `Nat`; the two index-wrapping
expressions in `handleKeyDown`, whose intermediate values live in `Int`, are
computed with `Int.tmod` (JS `%` is truncating) and converted back.  The
`score` field of a result and the numeric settings fields are carried
opaquely (the component performs no arithmetic on them); `score` is embedded
as `Int` and the opacity/blur settings as `ℚ` so that every definition stays
decidable and executable.
-/

namespace Omnibox

/-- A `SearchResult` record as received from the backend `search` command.
The component never computes with `score`; it is carried opaquely. -/
structure SearchResult where
  id : String
  title : String
  subtitle : String
  score : Int
  action_type : String
  action_data : String
  file_type : String
deriving DecidableEq, Repr

/-- The `AppSettings` record (`interface AppSettings` in App.vue). -/
structure AppSettings where
  max_results : Int
  enable_autostart : Bool
  theme_bg_image : String
  theme_bg_opacity : ℚ
  theme_bg_blur : ℚ
deriving DecidableEq, Repr

/-- The pinned background path: `const FIXED_BG_PATH = "/bg.png"`. -/
def FIXED_BG_PATH : String := "/bg.png"

/-- The initial value of the `settings` ref. -/
def defaultSettings : AppSettings :=
  { max_results := 100
    enable_autostart := false
    theme_bg_image := FIXED_BG_PATH
    theme_bg_opacity := 1 / 20
    theme_bg_blur := 0 }

/-- The record returned by the external `get_settings` command.  Fields may
be missing (the spread `{ ...settings.value, ...saved }` merge falls back to
the in-memory defaults for absent fields), hence every field is optional. -/
structure SavedSettings where
  max_results : Option Int := none
  enable_autostart : Option Bool := none
  theme_bg_image : Option String := none
  theme_bg_opacity : Option ℚ := none
  theme_bg_blur : Option ℚ := none
deriving DecidableEq, Repr

/-- The tail of `loadSettings`, after `get_settings` resolves with `saved`:
`settings.value = { ...settings.value, ...saved }` followed by the forced
overwrite `settings.value.theme_bg_image = FIXED_BG_PATH`. -/
def loadSettingsApply (cur : AppSettings) (saved : SavedSettings) : AppSettings :=
  let merged : AppSettings :=
    { max_results := saved.max_results.getD cur.max_results
      enable_autostart := saved.enable_autostart.getD cur.enable_autostart
      theme_bg_image := saved.theme_bg_image.getD cur.theme_bg_image
      theme_bg_opacity := saved.theme_bg_opacity.getD cur.theme_bg_opacity
      theme_bg_blur := saved.theme_bg_blur.getD cur.theme_bg_blur }
  { merged with theme_bg_image := FIXED_BG_PATH }

/-- The synchronous preparation in `saveSettings` before the record is passed
to the external `save_settings` command: `Number(...)` re-coercion of
`max_results` (the identity on an already-numeric value, which is how the
field is embedded here) and the re-pinning of `theme_bg_image`. -/
def saveSettingsPrepare (s : AppSettings) : AppSettings :=
  let s1 := { s with max_results := s.max_results }
  { s1 with theme_bg_image := FIXED_BG_PATH }

/-- The component state: every mutable ref / module-level variable of the
script, plus the two pending `setTimeout` deadlines (absolute fire times).
`unlisten`, `searchInput` and `resultListRef` are DOM/subscription handles
with no coordination logic and are not part of the state. -/
structure AppState where
  query : String := ""
  results : List SearchResult := []
  selectedIndex : Nat := 0
  isLoading : Bool := false
  latestSearchId : Nat := 0
  isKeyboardScroll : Bool := false
  isMouseScrolling : Bool := false
  isKeyboardSelection : Bool := false
  showSettings : Bool := false
  settings : AppSettings := defaultSettings
  searchDeadline : Option Nat := none
  scrollDeadline : Option Nat := none
deriving DecidableEq, Repr

/-- The synchronous head of `performSearch`:
`const currentSearchId = ++latestSearchId; isLoading.value = true;`.
The token owned by the new call is `s.latestSearchId + 1`. -/
def dispatchStep (s : AppState) : AppState :=
  { s with latestSearchId := s.latestSearchId + 1, isLoading := true }

/-- The `finally` block of `performSearch`:
`if (currentSearchId === latestSearchId) isLoading.value = false`. -/
def psFinally (s : AppState) (t : Nat) : AppState :=
  if t = s.latestSearchId then { s with isLoading := false } else s

/-- Resumption of `performSearch` with token `t` when the awaited `search`
call resolves with `res`: the staleness guard
`if (currentSearchId !== latestSearchId) return;` (the `finally` block still
runs on the early-return path), then
`results.value = res; selectedIndex.value = 0;`, then the `finally` block. -/
def performSearchOk (s : AppState) (t : Nat) (res : List SearchResult) : AppState :=
  psFinally
    (if t = s.latestSearchId then { s with results := res, selectedIndex := 0 } else s) t

/-- Resumption of `performSearch` with token `t` when the awaited `search`
call rejects: the `catch` block (guarded `console.error` + `results.value = []`)
followed by the `finally` block.  The returned `Bool` records whether the
failure was logged by `console.error`. -/
def performSearchErr (s : AppState) (t : Nat) : AppState × Bool :=
  if t = s.latestSearchId then (psFinally { s with results := [] } t, true)
  else (psFinally s t, false)

/-- An event of the asynchronous search pipeline: a new `performSearch` call
being issued, or the response for the call owning token `t` arriving
(resolution or rejection).  Arrival order is unconstrained, so out-of-order
completions are arbitrary interleavings here. -/
inductive SEvent where
  | dispatch (q : String)
  | arriveOk (t : Nat) (res : List SearchResult)
  | arriveErr (t : Nat)
deriving DecidableEq, Repr

/-- One step of the search pipeline. -/
def sstep (s : AppState) : SEvent → AppState
  | .dispatch _ => dispatchStep s
  | .arriveOk t res => performSearchOk s t res
  | .arriveErr t => (performSearchErr s t).1

/-- Run a sequence of search-pipeline events, recording the accepted
(non-stale) arrivals as `(token, committed ResultSet)` pairs: an accepted
resolution commits its response, an accepted rejection commits `[]`. -/
def runSLog : AppState → List SEvent → AppState × List (Nat × List SearchResult)
  | s, [] => (s, [])
  | s, e :: rest =>
    let entry : List (Nat × List SearchResult) :=
      match e with
      | .arriveOk t res => if t = s.latestSearchId then [(t, res)] else []
      | .arriveErr t => if t = s.latestSearchId then [(t, [])] else []
      | .dispatch _ => []
    let p := runSLog (sstep s e) rest
    (p.1, entry ++ p.2)

/-- Keys distinguished by `handleKeyDown`; `other c` is any other key. -/
inductive Key where
  | escape
  | arrowDown
  | arrowUp
  | enter
  | other (c : String)
deriving DecidableEq, Repr

/-- External requests issued synchronously by `handleKeyDown`. -/
inductive Action where
  | search (q : String)
  | hide
  | execute (id : String) (q : String)
deriving DecidableEq, Repr

/-- The ArrowDown update `selectedIndex.value = (selectedIndex.value + 1) % results.value.length`
(JS `%` is `Int.tmod`; both operands are non-negative here). -/
def kdArrowDownIndex (i n : Nat) : Nat :=
  (Int.tmod ((i : Int) + 1) (n : Int)).toNat

/-- The ArrowUp update `selectedIndex.value = (selectedIndex.value - 1 + results.value.length) %
results.value.length` (JS `%` is `Int.tmod`). -/
def kdArrowUpIndex (i n : Nat) : Nat :=
  (Int.tmod ((i : Int) - 1 + (n : Int)) (n : Int)).toNat

/-- The handler `handleKeyDown`, returning the new state and the external requests
issued synchronously.  An Escape with a non-empty query runs the synchronous
head of `performSearch("")` (`dispatchStep`) before the handler returns; the
`e.preventDefault()` calls have no state effect and are not modelled. -/
def handleKeyDown (s : AppState) (k : Key) : AppState × List Action :=
  if k = .escape then
    if 0 < s.query.length then
      (dispatchStep { s with query := "" }, [.search ("")])
    else
      (s, [.hide])
  else if s.results.length = 0 then (s, [])
  else
    let s1 := { s with isKeyboardScroll := true, isKeyboardSelection := true }
    match k with
    | .arrowDown =>
        ({ s1 with selectedIndex := kdArrowDownIndex s1.selectedIndex s1.results.length }, [])
    | .arrowUp =>
        ({ s1 with selectedIndex := kdArrowUpIndex s1.selectedIndex s1.results.length }, [])
    | .enter =>
        match s1.results[s1.selectedIndex]? with
        | some item => (s1, [.execute item.id s1.query])
        | none => (s1, [])
    | _ => (s1, [])

/-- State part of `handleKeyDown`. -/
def kdState (s : AppState) (k : Key) : AppState := (handleKeyDown s k).1

/-- One ArrowDown keypress (state part). -/
def kdDown (s : AppState) : AppState := kdState s .arrowDown

/-- One ArrowUp keypress (state part). -/
def kdUp (s : AppState) : AppState := kdState s .arrowUp

/-- The handler `handleMouseMove(index, e)`: suppressed while `isMouseScrolling`, a no-op
for zero-motion events, otherwise selects the hovered row and clears the
keyboard-selection gate. -/
def handleMouseMove (s : AppState) (index : Nat) (mx my : Int) : AppState :=
  if s.isMouseScrolling = true then s
  else if mx = 0 ∧ my = 0 then s
  else { s with selectedIndex := index, isKeyboardSelection := false }

/-- The handler `handleListScroll` at time `now`: sets `isMouseScrolling`, cancels any
pending scroll timer and schedules a new one 150 ms out. -/
def handleListScroll (s : AppState) (now : Nat) : AppState :=
  { s with isMouseScrolling := true, scrollDeadline := some (now + 150) }

/-- The handler `handleInput` at time `now`: cancels any pending debounce timer, shows
the spinner immediately, and schedules the search dispatch 100 ms out. -/
def handleInput (s : AppState) (now : Nat) : AppState :=
  { s with isLoading := true, searchDeadline := some (now + 100) }

/-- The debounce timer firing: `performSearch(query.value)` reads the query
ref at fire time.  Returns the issued call as `(token, query)`. -/
def fireSearchTimer (s : AppState) : AppState × (Nat × String) :=
  let s1 := { s with searchDeadline := none }
  (dispatchStep s1, (s1.latestSearchId + 1, s1.query))

/-- Fire the debounce timer if its deadline is strictly before `now`. -/
def fireDueSearch (s : AppState) (now : Nat) : AppState × List (Nat × String) :=
  match s.searchDeadline with
  | some d =>
      if d < now then
        let q := fireSearchTimer s
        (q.1, [q.2])
      else (s, [])
  | none => (s, [])

/-- Fire the scroll-suppression timer (`isMouseScrolling.value = false`) if
its deadline is strictly before `now`. -/
def fireDueScroll (s : AppState) (now : Nat) : AppState :=
  match s.scrollDeadline with
  | some d =>
      if d < now then { s with scrollDeadline := none, isMouseScrolling := false }
      else s
  | none => s

/-- Fire the timers whose deadline is strictly before `now` (a pending
`setTimeout` callback runs before any event that arrives after its delay has
fully elapsed).  Returns the search calls issued by expired debounce timers. -/
def fireDue (s : AppState) (now : Nat) : AppState × List (Nat × String) :=
  let p := fireDueSearch s now
  (fireDueScroll p.1 now, p.2)

/-- Timed user events on the main view. -/
inductive TEvent where
  | input (q : String)
  | scroll
  | mouseMove (idx : Nat) (mx my : Int)
deriving DecidableEq, Repr

/-- Process one timed event: first fire any expired timers, then run the
handler (`input` first applies the `v-model` write to `query`). -/
def stepTimed (s : AppState) (now : Nat) (e : TEvent) : AppState × List (Nat × String) :=
  let p := fireDue s now
  match e with
  | .input q => (handleInput { p.1 with query := q } now, p.2)
  | .scroll => (handleListScroll p.1 now, p.2)
  | .mouseMove i mx my => (handleMouseMove p.1 i mx my, p.2)

/-- Run a list of timestamped events, collecting all search calls issued by
debounce-timer firings. -/
def runTimed : AppState → List (Nat × TEvent) → AppState × List (Nat × String)
  | s, [] => (s, [])
  | s, (t, e) :: rest =>
    let p := stepTimed s t e
    let q := runTimed p.1 rest
    (q.1, p.2 ++ q.2)

/-- Let a still-pending debounce timer fire. -/
def flushSearch (s : AppState) : AppState × List (Nat × String) :=
  match s.searchDeadline with
  | some _ =>
      let q := fireSearchTimer s
      (q.1, [q.2])
  | none => (s, [])

/-- Let a still-pending scroll-suppression timer fire. -/
def flushScroll (s : AppState) : AppState :=
  match s.scrollDeadline with
  | some _ => { s with scrollDeadline := none, isMouseScrolling := false }
  | none => s

/-- Let every still-pending timer fire (quiescence after the last event). -/
def flushTimers (s : AppState) : AppState × List (Nat × String) :=
  let p := flushSearch s
  (flushScroll p.1, p.2)

/-- The handler `toggleSettings`: opening the panel reloads the settings snapshot
(`loadSettings()` with store response `saved`) and shows the panel; closing
it (the Cancel button and the close icon both call this) only hides the
panel — the `nextTick` refocus has no state effect. -/
def toggleSettings (s : AppState) (saved : SavedSettings) : AppState :=
  if s.showSettings = false then
    { s with settings := loadSettingsApply s.settings saved, showSettings := true }
  else
    { s with showSettings := false }

/-- A form edit while the settings panel is open: the `v-model` bindings
mutate the `settings` ref in place. -/
def editSettings (s : AppState) (f : AppSettings → AppSettings) : AppState :=
  { s with settings := f s.settings }

/-- The `watch(selectedIndex, ...)` callback.  `hasRef` models
`resultListRef.value` being non-null and `childCount` the number of rendered
children of the result container (the rendered result rows).  Returns the
new state and whether `scrollIntoView` was requested. -/
def watchSelectedIndex (s : AppState) (hasRef : Bool) (childCount : Nat) : AppState × Bool :=
  if s.isKeyboardScroll = false ∨ hasRef = false then (s, false)
  else if childCount ≤ s.selectedIndex then (s, false)
  else ({ s with isKeyboardScroll := false }, true)

/-! Concrete sample data for evaluating the definitions. -/

/-- A sample application result. -/
def rA : SearchResult :=
  { id := "a.exe", title := "Alpha", subtitle := "C:/a.exe", score := 10
    action_type := "app", action_data := "a.exe", file_type := "Application" }

/-- A sample file result. -/
def rB : SearchResult :=
  { id := "b.txt", title := "Beta", subtitle := "C:/b.txt", score := 5
    action_type := "file", action_data := "b.txt", file_type := "File" }

/-- A third sample result. -/
def rC : SearchResult :=
  { id := "c.png", title := "Gamma", subtitle := "C:/c.png", score := 2
    action_type := "file", action_data := "c.png", file_type := "File" }

/-- The freshly mounted component state. -/
def initState : AppState := {}

/-- A state in which two searches are outstanding and result 5 of a previous
list is selected. -/
def exStale : AppState :=
  { query := "q", results := [rA, rB], selectedIndex := 1, isLoading := true
    latestSearchId := 7 }

/-- A state with a still-current token 1 and a non-zero selection. -/
def exC2 : AppState :=
  { query := "q", results := [rA, rB, rC, rA], selectedIndex := 3
    isLoading := true, latestSearchId := 1 }

/-- An out-of-order completion trace: two dispatches, the second response
arrives first (and is accepted), the first arrives last (and is stale). -/
def trC1 : List SEvent :=
  [.dispatch ("x"), .dispatch ("xy"), .arriveOk 2 [rB], .arriveOk 1 [rA, rB]]

/-- A three-keystroke burst with inter-arrival gaps below 100 ms. -/
def burstQ : List (Nat × String) := [(0, "a"), (50, "ab"), (120, "abc")]

/-- A state for keyboard-navigation evaluation: three results, middle row
selected. -/
def exNav : AppState :=
  { query := "q", results := [rA, rB, rC], selectedIndex := 1 }

/-- The store's persisted settings record, with a persisted background image
that differs from the pinned constant. -/
def savedEx : SavedSettings :=
  { max_results := some 50, enable_autostart := some true
    theme_bg_image := some ("C:/pictures/wall.jpg")
    theme_bg_opacity := some (1 / 2), theme_bg_blur := some 10 }

/-- Settings-panel session: open the panel from the initial state. -/
def c8Open : AppState := toggleSettings initState savedEx

/-- Then edit the `max_results` draft field to 42 through its form binding. -/
def c8Edit : AppState :=
  editSettings c8Open (fun a => { a with max_results := 42 })

/-- Then press Cancel. -/
def c8Cancel : AppState := toggleSettings c8Edit savedEx

/-! ### Basic lemmas about the search pipeline -/

lemma psFinally_latest (s : AppState) (t : Nat) :
    (psFinally s t).latestSearchId = s.latestSearchId := by
  unfold psFinally; split <;> rfl

lemma performSearchOk_stale (s : AppState) (t : Nat) (res : List SearchResult)
    (h : t ≠ s.latestSearchId) : performSearchOk s t res = s := by
  simp [performSearchOk, psFinally, h]

lemma performSearchErr_stale (s : AppState) (t : Nat)
    (h : t ≠ s.latestSearchId) : performSearchErr s t = (s, false) := by
  simp [performSearchErr, psFinally, h]

lemma performSearchOk_current (s : AppState) (t : Nat) (res : List SearchResult)
    (h : t = s.latestSearchId) :
    performSearchOk s t res =
      { s with results := res, selectedIndex := 0, isLoading := false } := by
  subst h; simp [performSearchOk, psFinally]

lemma performSearchErr_current (s : AppState) (t : Nat) (h : t = s.latestSearchId) :
    performSearchErr s t = ({ s with results := [], isLoading := false }, true) := by
  subst h; simp [performSearchErr, psFinally]

lemma performSearchOk_latest (s : AppState) (t : Nat) (res : List SearchResult) :
    (performSearchOk s t res).latestSearchId = s.latestSearchId := by
  unfold performSearchOk
  rw [psFinally_latest]
  split <;> rfl

lemma performSearchErr_latest (s : AppState) (t : Nat) :
    (performSearchErr s t).1.latestSearchId = s.latestSearchId := by
  unfold performSearchErr
  split <;> simp [psFinally_latest]

lemma sstep_latest_mono (s : AppState) (e : SEvent) :
    s.latestSearchId ≤ (sstep s e).latestSearchId := by
  cases e with
  | dispatch q => simp [sstep, dispatchStep]
  | arriveOk t res => simp [sstep, performSearchOk_latest]
  | arriveErr t => simp [sstep, performSearchErr_latest]

lemma runSLog_fst (s : AppState) (e : SEvent) (rest : List SEvent) :
    (runSLog s (e :: rest)).1 = (runSLog (sstep s e) rest).1 := rfl

lemma runSLog_latest_mono : ∀ (evs : List SEvent) (s : AppState),
    s.latestSearchId ≤ (runSLog s evs).1.latestSearchId := by
  intro evs
  induction evs with
  | nil => intro s; simp [runSLog]
  | cons e rest ih =>
      intro s
      rw [runSLog_fst]
      exact le_trans (sstep_latest_mono s e) (ih (sstep s e))

/-- The run invariant behind latest-wins: a run with no accepted arrival
leaves `results` untouched; every accepted token is at least the initial
`latestSearchId`; and after at least one accepted arrival the visible
`results` are the committed set of an accepted arrival whose token dominates
every other accepted token. -/
lemma c1_run_inv : ∀ (evs : List SEvent) (s : AppState),
    ((runSLog s evs).2 = [] → (runSLog s evs).1.results = s.results)
    ∧ (∀ p ∈ (runSLog s evs).2, s.latestSearchId ≤ p.1)
    ∧ ((runSLog s evs).2 ≠ [] → ∃ p ∈ (runSLog s evs).2,
        (runSLog s evs).1.results = p.2 ∧ ∀ q ∈ (runSLog s evs).2, q.1 ≤ p.1) := by
  intro evs
  induction evs with
  | nil =>
      intro s
      refine ⟨fun _ => rfl, by simp [runSLog], by simp [runSLog]⟩
  | cons e rest ih =>
      intro s
      cases e with
      | dispatch q =>
          have h : runSLog s (.dispatch q :: rest) = runSLog (dispatchStep s) rest := rfl
          rw [h]
          obtain ⟨ih1, ih2, ih3⟩ := ih (dispatchStep s)
          refine ⟨fun hl => ih1 hl, fun p hp => ?_, ih3⟩
          have := ih2 p hp
          simp only [dispatchStep] at this
          omega
      | arriveOk t res =>
          by_cases ht : t = s.latestSearchId
          · have hs' : sstep s (.arriveOk t res) =
                { s with results := res, selectedIndex := 0, isLoading := false } := by
              simp [sstep, performSearchOk_current s t res ht]
            have h : runSLog s (.arriveOk t res :: rest) =
                ((runSLog (sstep s (.arriveOk t res)) rest).1,
                  (t, res) :: (runSLog (sstep s (.arriveOk t res)) rest).2) := by
              simp [runSLog, ht]
            rw [h]
            obtain ⟨ih1, ih2, ih3⟩ := ih (sstep s (.arriveOk t res))
            have hlat : (sstep s (.arriveOk t res)).latestSearchId = s.latestSearchId := by
              rw [hs']
            refine ⟨by simp, ?_, ?_⟩
            · intro p hp
              rcases List.mem_cons.mp hp with hp | hp
              · subst hp; omega
              · have := ih2 p hp; omega
            · intro _
              by_cases hL : (runSLog (sstep s (.arriveOk t res)) rest).2 = []
              · refine ⟨(t, res), by simp, ?_, ?_⟩
                · have := ih1 hL
                  rw [this, hs']
                · simp [hL]
              · obtain ⟨p, hp, hres, hmax⟩ := ih3 hL
                refine ⟨p, List.mem_cons_of_mem _ hp, hres, ?_⟩
                intro q hq
                rcases List.mem_cons.mp hq with hq | hq
                · subst hq
                  have := ih2 p hp
                  omega
                · exact hmax q hq
          · have hs' : sstep s (.arriveOk t res) = s := by
              simp [sstep, performSearchOk_stale s t res ht]
            have h : runSLog s (.arriveOk t res :: rest) = runSLog s rest := by
              simp only [runSLog, hs', if_neg ht, List.nil_append]
            rw [h]
            exact ih s
      | arriveErr t =>
          by_cases ht : t = s.latestSearchId
          · have hs' : sstep s (.arriveErr t) = { s with results := [], isLoading := false } := by
              simp [sstep, performSearchErr_current s t ht]
            have h : runSLog s (.arriveErr t :: rest) =
                ((runSLog (sstep s (.arriveErr t)) rest).1,
                  (t, ([] : List SearchResult)) :: (runSLog (sstep s (.arriveErr t)) rest).2) := by
              simp [runSLog, ht]
            rw [h]
            obtain ⟨ih1, ih2, ih3⟩ := ih (sstep s (.arriveErr t))
            have hlat : (sstep s (.arriveErr t)).latestSearchId = s.latestSearchId := by
              rw [hs']
            refine ⟨by simp, ?_, ?_⟩
            · intro p hp
              rcases List.mem_cons.mp hp with hp | hp
              · subst hp; omega
              · have := ih2 p hp; omega
            · intro _
              by_cases hL : (runSLog (sstep s (.arriveErr t)) rest).2 = []
              · refine ⟨(t, []), by simp, ?_, ?_⟩
                · have := ih1 hL
                  rw [this, hs']
                · simp [hL]
              · obtain ⟨p, hp, hres, hmax⟩ := ih3 hL
                refine ⟨p, List.mem_cons_of_mem _ hp, hres, ?_⟩
                intro q hq
                rcases List.mem_cons.mp hq with hq | hq
                · subst hq
                  have := ih2 p hp
                  omega
                · exact hmax q hq
          · have hs' : sstep s (.arriveErr t) = s := by
              simp [sstep, performSearchErr_stale s t ht]
            have h : runSLog s (.arriveErr t :: rest) = runSLog s rest := by
              simp only [runSLog, hs', if_neg ht, List.nil_append]
            rw [h]
            exact ih s

/-- C1: `performSearch` tags every dispatch with a strictly increasing token
(the freshly incremented `latestSearchId`); a response whose token is no
longer current at arrival — resolution or rejection — is discarded with no
state mutation; and after any interleaving of dispatches and completions,
arriving in any order, the visible `results` equal the committed ResultSet
of the highest token that arrived and was accepted (the initial list when no
arrival was accepted). -/
theorem c1_latest_wins :
    (∀ s : AppState, (dispatchStep s).latestSearchId = s.latestSearchId + 1)
    ∧ (∀ (s : AppState) (t : Nat) (res : List SearchResult), t ≠ s.latestSearchId →
        performSearchOk s t res = s ∧ (performSearchErr s t).1 = s)
    ∧ (∀ (s : AppState) (evs : List SEvent),
        ((runSLog s evs).2 = [] → (runSLog s evs).1.results = s.results)
        ∧ ((runSLog s evs).2 ≠ [] → ∃ p ∈ (runSLog s evs).2,
            (runSLog s evs).1.results = p.2 ∧ ∀ q ∈ (runSLog s evs).2, q.1 ≤ p.1)) := by
  refine ⟨fun s => rfl, fun s t res ht => ⟨performSearchOk_stale s t res ht, ?_⟩,
    fun s evs => ⟨(c1_run_inv evs s).1, (c1_run_inv evs s).2.2⟩⟩
  rw [performSearchErr_stale s t ht]

/-- Witness for C1: a stale response (token 5 while token 7 is current) is
discarded verbatim, and on the out-of-order trace `trC1` the visible results
are those of the accepted maximal token 2, not of token 1 which arrived
last. -/
theorem c1_latest_wins_witness :
    performSearchOk exStale 5 [rA] = exStale
    ∧ ∃ p ∈ (runSLog initState trC1).2,
        (runSLog initState trC1).1.results = p.2
        ∧ ∀ q ∈ (runSLog initState trC1).2, q.1 ≤ p.1 :=
  ⟨(c1_latest_wins.2.1 exStale 5 [rA] (by decide)).1,
   (c1_latest_wins.2.2 initState trC1).2 (by decide)⟩

/-! ### C2 — selection reset on accepted replacement -/

/-- C2 counterexample: in `exC2` token 1 is still current and the selection
is 3; the failed search's accepted replacement by the empty list
(`results.value = []` in the `catch` block) does not reset the selection —
`selectedIndex` stays 3, so an accepted replacement does not always set it
to 0. -/
theorem c2_counterexample :
    (performSearchErr exC2 1).1.results = []
    ∧ (performSearchErr exC2 1).1.selectedIndex = 3 := by decide

/-- C2 (amended): an accepted successful replacement of the ResultSet sets
`selectedIndex` to 0 regardless of the prior index, but the accepted
replacement by the empty list performed by a failed search leaves
`selectedIndex` unchanged (only the success path resets it). -/
theorem c2_selection_reset (s : AppState) (t : Nat) (res : List SearchResult)
    (h : t = s.latestSearchId) :
    (performSearchOk s t res).results = res
    ∧ (performSearchOk s t res).selectedIndex = 0
    ∧ (performSearchErr s t).1.results = []
    ∧ (performSearchErr s t).1.selectedIndex = s.selectedIndex := by
  rw [performSearchOk_current s t res h, performSearchErr_current s t h]
  exact ⟨rfl, rfl, rfl, rfl⟩

/-- Witness for the amended C2 at the concrete state `exC2` (current token 1,
prior selection 3). -/
theorem c2_selection_reset_witness :
    (performSearchOk exC2 1 [rA]).selectedIndex = 0
    ∧ (performSearchErr exC2 1).1.selectedIndex = 3 := by
  refine ⟨(c2_selection_reset exC2 1 [rA] (by decide)).2.1, ?_⟩
  rw [(c2_selection_reset exC2 1 [rA] (by decide)).2.2.2]
  decide

/-! ### C9 — failure handling -/

/-- C9: when the external search call rejects, a still-current token logs the
failure (`console.error`, the `Bool` component) and sets `results := []` and
`isLoading := false`, touching nothing else; a stale token swallows the
failure silently, with no logging and the state returned verbatim. -/
theorem c9_failure_handling (s : AppState) (t : Nat) :
    (t = s.latestSearchId →
      performSearchErr s t = ({ s with results := [], isLoading := false }, true))
    ∧ (t ≠ s.latestSearchId → performSearchErr s t = (s, false)) :=
  ⟨fun h => performSearchErr_current s t h, fun h => performSearchErr_stale s t h⟩

/-- Witness for C9: a current-token failure (token 1 at `exC2`) and a stale
failure (token 3 while 7 is current at `exStale`). -/
theorem c9_failure_handling_witness :
    performSearchErr exC2 1 = ({ exC2 with results := [], isLoading := false }, true)
    ∧ performSearchErr exStale 3 = (exStale, false) :=
  ⟨(c9_failure_handling exC2 1).1 (by decide),
   (c9_failure_handling exStale 3).2 (by decide)⟩

/-! ### C6 — Escape two-stage behaviour -/

lemma string_length_pos_of_ne {s : String} (h : s ≠ "") : 0 < s.length := by
  rcases s with ⟨data⟩
  cases data with
  | nil => exact absurd rfl h
  | cons c cs => simp [String.length]

/-- C6: Escape with a non-empty query clears the query and synchronously
issues a search for the empty string (the dispatch head increments the
token), leaving the ResultSet untouched; Escape with an empty query issues
only a window-hide request and leaves the whole state — query and ResultSet
included — verbatim. -/
theorem c6_escape_two_stage (s : AppState) :
    (s.query ≠ "" →
      (handleKeyDown s .escape).1.query = ""
      ∧ (handleKeyDown s .escape).1.latestSearchId = s.latestSearchId + 1
      ∧ (handleKeyDown s .escape).1.results = s.results
      ∧ (handleKeyDown s .escape).2 = [Action.search ("")])
    ∧ (s.query = "" → handleKeyDown s .escape = (s, [Action.hide])) := by
  constructor
  · intro h
    have hlen : 0 < s.query.length := string_length_pos_of_ne h
    simp [handleKeyDown, hlen, dispatchStep]
  · intro h
    simp [handleKeyDown, h]

/-- Witness for C6: the non-empty branch at `exStale` (query `"q"`) and the
empty branch at `initState`. -/
theorem c6_escape_two_stage_witness :
    (handleKeyDown exStale .escape).2 = [Action.search ("")]
    ∧ handleKeyDown initState .escape = (initState, [Action.hide]) :=
  ⟨((c6_escape_two_stage exStale).1 (by decide)).2.2.2,
   (c6_escape_two_stage initState).2 (by decide)⟩

/-! ### C7 — settings pinning -/

/-- C7: whatever background-image value the store persisted (any
`saved.theme_bg_image`, present or absent), the draft produced by the
settings load carries the fixed constant `FIXED_BG_PATH`, and so does the
record handed to the external `save_settings` call. -/
theorem c7_settings_pinning :
    (∀ (cur : AppSettings) (saved : SavedSettings),
      (loadSettingsApply cur saved).theme_bg_image = FIXED_BG_PATH)
    ∧ (∀ s : AppSettings, (saveSettingsPrepare s).theme_bg_image = FIXED_BG_PATH) :=
  ⟨fun _ _ => rfl, fun _ => rfl⟩

/-! ### C8 — the settings draft and cancel -/

/-- C8 counterexample: open the panel (the loaded draft has
`max_results = 50` from the store), edit the field to 42, press Cancel —
the in-memory settings still hold 42, not the pre-edit 50: the edits
survive a cancel. -/
theorem c8_counterexample :
    c8Open.settings.max_results = 50 ∧ c8Cancel.settings.max_results = 42 := by decide

/-- C8 (amended): cancelling the settings panel only hides it — after
`open()` followed by edits, cancel leaves the in-memory settings exactly at
their edited values (the draft is not restored; it is merely never
persisted, and is replaced only when the next open reloads the snapshot). -/
theorem c8_cancel_keeps_draft (s : AppState) (saved : SavedSettings)
    (f : AppSettings → AppSettings) (h : s.showSettings = true) :
    (toggleSettings (editSettings s f) saved).settings = f s.settings
    ∧ (toggleSettings (editSettings s f) saved).showSettings = false := by
  simp [toggleSettings, editSettings, h]

/-- Witness for the amended C8, at the concrete session
`open → edit max_results to 42 → cancel`. -/
theorem c8_cancel_keeps_draft_witness :
    (toggleSettings (editSettings c8Open (fun a => { a with max_results := 42 })) savedEx).settings
      = { c8Open.settings with max_results := 42 }
    ∧ (toggleSettings (editSettings c8Open (fun a => { a with max_results := 42 }))
        savedEx).showSettings = false :=
  c8_cancel_keeps_draft c8Open savedEx (fun a => { a with max_results := 42 }) (by decide)

/-! ### C4 — cyclic keyboard navigation -/

lemma tmod_natCast (m n : Nat) : Int.tmod (m : Int) (n : Int) = ((m % n : Nat) : Int) := rfl

lemma kdArrowDownIndex_eq (i n : Nat) : kdArrowDownIndex i n = (i + 1) % n := by
  unfold kdArrowDownIndex
  have h : ((i : Int) + 1) = ((i + 1 : Nat) : Int) := by push_cast; ring
  rw [h, tmod_natCast, Int.toNat_natCast]

lemma kdArrowUpIndex_eq (i n : Nat) (hn : n ≠ 0) :
    kdArrowUpIndex i n = (i + n - 1) % n := by
  unfold kdArrowUpIndex
  have h : ((i : Int) - 1 + (n : Int)) = ((i + n - 1 : Nat) : Int) := by omega
  rw [h, tmod_natCast, Int.toNat_natCast]

lemma kdDown_eq (s : AppState) (h : s.results ≠ []) :
    kdDown s = { s with
      isKeyboardScroll := true
      isKeyboardSelection := true
      selectedIndex := (s.selectedIndex + 1) % s.results.length } := by
  have hlen : s.results.length ≠ 0 := by simpa using h
  simp [kdDown, kdState, handleKeyDown, hlen, kdArrowDownIndex_eq]

lemma kdUp_eq (s : AppState) (h : s.results ≠ []) :
    kdUp s = { s with
      isKeyboardScroll := true
      isKeyboardSelection := true
      selectedIndex := (s.selectedIndex + s.results.length - 1) % s.results.length } := by
  have hlen : s.results.length ≠ 0 := by simpa using h
  simp [kdUp, kdState, handleKeyDown, hlen, kdArrowUpIndex_eq _ _ hlen]

lemma kdDown_iterate (s : AppState) (h : s.results ≠ [])
    (hi : s.selectedIndex < s.results.length) :
    ∀ k : Nat, (kdDown^[k] s).results = s.results
      ∧ (kdDown^[k] s).selectedIndex = (s.selectedIndex + k) % s.results.length := by
  intro k
  induction k with
  | zero => simpa using (Nat.mod_eq_of_lt hi).symm
  | succ k ih =>
      obtain ⟨hres, hidx⟩ := ih
      have hne : (kdDown^[k] s).results ≠ [] := by rw [hres]; exact h
      rw [Function.iterate_succ_apply', kdDown_eq _ hne]
      refine ⟨by simpa using hres, ?_⟩
      simp only [hres, hidx]
      rw [Nat.mod_add_mod, Nat.add_assoc]

lemma kdUp_iterate (s : AppState) (h : s.results ≠ [])
    (hi : s.selectedIndex < s.results.length) :
    ∀ k : Nat, (kdUp^[k] s).results = s.results
      ∧ (kdUp^[k] s).selectedIndex
          = (s.selectedIndex + k * (s.results.length - 1)) % s.results.length := by
  intro k
  induction k with
  | zero => simpa using (Nat.mod_eq_of_lt hi).symm
  | succ k ih =>
      obtain ⟨hres, hidx⟩ := ih
      have hne : (kdUp^[k] s).results ≠ [] := by rw [hres]; exact h
      rw [Function.iterate_succ_apply', kdUp_eq _ hne]
      refine ⟨by simpa using hres, ?_⟩
      simp only [hres, hidx]
      have hn1 : 0 < s.results.length := List.length_pos.mpr h
      have h2 : (s.selectedIndex + k * (s.results.length - 1)) % s.results.length
            + s.results.length - 1
          = (s.selectedIndex + k * (s.results.length - 1)) % s.results.length
            + (s.results.length - 1) := by omega
      rw [h2, Nat.mod_add_mod]
      have h3 : s.selectedIndex + k * (s.results.length - 1) + (s.results.length - 1)
          = s.selectedIndex + (k + 1) * (s.results.length - 1) := by ring
      rw [h3]

/-- C4: with a non-empty ResultSet of size `n`, ArrowDown maps the selection
`i` to `(i + 1) % n` and ArrowUp to `(i - 1 + n) % n` (written Nat-safely as
`(i + n - 1) % n`, the same integer); with an empty ResultSet both are
no-ops; and `n` consecutive Down presses — likewise `n` Up presses — from
any valid starting index return the selection to the starting index. -/
theorem c4_cyclic_navigation :
    (∀ s : AppState, s.results ≠ [] →
      (kdDown s).selectedIndex = (s.selectedIndex + 1) % s.results.length
      ∧ (kdUp s).selectedIndex
          = (s.selectedIndex + s.results.length - 1) % s.results.length)
    ∧ (∀ s : AppState, s.results = [] → kdDown s = s ∧ kdUp s = s)
    ∧ (∀ s : AppState, s.results ≠ [] → s.selectedIndex < s.results.length →
      (kdDown^[s.results.length] s).selectedIndex = s.selectedIndex
      ∧ (kdUp^[s.results.length] s).selectedIndex = s.selectedIndex) := by
  refine ⟨fun s h => ⟨by rw [kdDown_eq s h], by rw [kdUp_eq s h]⟩,
    fun s h => ?_, fun s h hi => ?_⟩
  · constructor <;> simp [kdDown, kdUp, kdState, handleKeyDown, h]
  · constructor
    · rw [(kdDown_iterate s h hi s.results.length).2, Nat.add_mod_right]
      exact Nat.mod_eq_of_lt hi
    · rw [(kdUp_iterate s h hi s.results.length).2, Nat.add_mul_mod_self_left]
      exact Nat.mod_eq_of_lt hi

/-- Witness for C4 at `exNav` (three results, selection 1): Down moves to 2,
Up moves to 0, and three consecutive Downs or Ups return to 1. -/
theorem c4_cyclic_navigation_witness :
    (kdDown exNav).selectedIndex = 2 ∧ (kdUp exNav).selectedIndex = 0
    ∧ (kdDown^[3] exNav).selectedIndex = 1 ∧ (kdUp^[3] exNav).selectedIndex = 1 := by
  have h1 := c4_cyclic_navigation.1 exNav (by decide)
  have h3 := c4_cyclic_navigation.2.2 exNav (by decide) (by decide)
  have hlen : exNav.results.length = 3 := by decide
  rw [hlen] at h3
  exact ⟨by rw [h1.1]; decide, by rw [h1.2]; decide,
    by rw [h3.1]; decide, by rw [h3.2]; decide⟩

/-! ### C10 — every non-Escape key sets both keyboard gates -/

lemma handleKeyDown_gates (s : AppState) (k : Key) (hk : k ≠ .escape)
    (hr : s.results ≠ []) :
    (handleKeyDown s k).1.isKeyboardScroll = true
    ∧ (handleKeyDown s k).1.isKeyboardSelection = true
    ∧ (handleKeyDown s k).1.isMouseScrolling = s.isMouseScrolling
    ∧ (handleKeyDown s k).1.results = s.results := by
  have hlen : s.results.length ≠ 0 := by simpa using hr
  cases k with
  | escape => exact absurd rfl hk
  | arrowDown => simp [handleKeyDown, hlen]
  | arrowUp => simp [handleKeyDown, hlen]
  | enter =>
      rcases hx : s.results[s.selectedIndex]? with _ | item <;>
        simp [handleKeyDown, hlen, hx]
  | other c => simp [handleKeyDown, hlen]

/-- C10: every keydown other than Escape received while the ResultSet is
non-empty — ordinary character keys and Enter included — sets both
`isKeyboardScroll` and `isKeyboardSelection`; consequently a later hover
motion (not suppressed, with genuine movement) moves the selection to the
hovered row while `isKeyboardScroll` is still set, so the selection watcher
requests `scrollIntoView` for that row. -/
theorem c10_keyboard_gates (s : AppState) (k : Key) (hk : k ≠ .escape)
    (hr : s.results ≠ []) :
    ((handleKeyDown s k).1.isKeyboardScroll = true
      ∧ (handleKeyDown s k).1.isKeyboardSelection = true)
    ∧ (∀ (i : Nat) (mx my : Int), s.isMouseScrolling = false → ¬(mx = 0 ∧ my = 0) →
        (handleMouseMove (handleKeyDown s k).1 i mx my).selectedIndex = i
        ∧ (handleMouseMove (handleKeyDown s k).1 i mx my).isKeyboardScroll = true
        ∧ (i < s.results.length →
            (watchSelectedIndex (handleMouseMove (handleKeyDown s k).1 i mx my) true
              s.results.length).2 = true)) := by
  obtain ⟨h1, h2, h3, h4⟩ := handleKeyDown_gates s k hk hr
  refine ⟨⟨h1, h2⟩, ?_⟩
  intro i mx my hms hmv
  have hcond : (handleKeyDown s k).1.isMouseScrolling = false := h3.trans hms
  have hmm : handleMouseMove (handleKeyDown s k).1 i mx my
      = { (handleKeyDown s k).1 with selectedIndex := i, isKeyboardSelection := false } := by
    simp [handleMouseMove, hcond, hmv]
  rw [hmm]
  refine ⟨rfl, by simpa using h1, ?_⟩
  intro hi
  unfold watchSelectedIndex
  simp [h1, Nat.not_le.mpr hi]

/-- Witness for C10: an ordinary character key at `exNav`, followed by a
hover over row 2 with unit horizontal motion. -/
theorem c10_keyboard_gates_witness :
    (handleKeyDown exNav (.other ("a"))).1.isKeyboardScroll = true
    ∧ (handleMouseMove (handleKeyDown exNav (.other ("a"))).1 2 1 0).selectedIndex = 2
    ∧ (watchSelectedIndex (handleMouseMove (handleKeyDown exNav (.other ("a"))).1 2 1 0) true
        exNav.results.length).2 = true := by
  have h := c10_keyboard_gates exNav (.other ("a")) (by decide) (by decide)
  have h2 := h.2 2 1 0 (by decide) (by decide)
  exact ⟨h.1.1, h2.1, h2.2.2 (by decide)⟩

/-! ### Timer lemmas -/

lemma fireDueSearch_none (s : AppState) (now : Nat) (hd : s.searchDeadline = none) :
    fireDueSearch s now = (s, []) := by
  unfold fireDueSearch
  rw [hd]

lemma fireDueSearch_wait (s : AppState) (now d : Nat) (hd : s.searchDeadline = some d)
    (h : ¬ d < now) : fireDueSearch s now = (s, []) := by
  unfold fireDueSearch
  rw [hd]
  exact if_neg h

lemma fireDueSearch_fields (s : AppState) (now : Nat) :
    (fireDueSearch s now).1.scrollDeadline = s.scrollDeadline
    ∧ (fireDueSearch s now).1.isMouseScrolling = s.isMouseScrolling
    ∧ (fireDueSearch s now).1.selectedIndex = s.selectedIndex
    ∧ (fireDueSearch s now).1.results = s.results := by
  unfold fireDueSearch
  split
  · split <;> exact ⟨rfl, rfl, rfl, rfl⟩
  · exact ⟨rfl, rfl, rfl, rfl⟩

lemma fireDueScroll_fields (s : AppState) (now : Nat) :
    (fireDueScroll s now).searchDeadline = s.searchDeadline
    ∧ (fireDueScroll s now).query = s.query
    ∧ (fireDueScroll s now).selectedIndex = s.selectedIndex
    ∧ (fireDueScroll s now).results = s.results
    ∧ (fireDueScroll s now).latestSearchId = s.latestSearchId := by
  unfold fireDueScroll
  split
  · split <;> exact ⟨rfl, rfl, rfl, rfl, rfl⟩
  · exact ⟨rfl, rfl, rfl, rfl, rfl⟩

lemma fireDueScroll_keep (s : AppState) (now dd : Nat) (hd : s.scrollDeadline = some dd)
    (h : ¬ dd < now) : fireDueScroll s now = s := by
  unfold fireDueScroll
  rw [hd]
  exact if_neg h

lemma fireDueScroll_fire (s : AppState) (now dd : Nat) (hd : s.scrollDeadline = some dd)
    (h : dd < now) :
    fireDueScroll s now = { s with scrollDeadline := none, isMouseScrolling := false } := by
  unfold fireDueScroll
  rw [hd]
  exact if_pos h

lemma fireDue_none (s : AppState) (now : Nat) (hd : s.searchDeadline = none) :
    (fireDue s now).2 = [] := by
  unfold fireDue
  rw [fireDueSearch_none s now hd]

lemma fireDue_no_search (s : AppState) (now d : Nat) (hd : s.searchDeadline = some d)
    (h : ¬ d < now) :
    (fireDue s now).2 = []
    ∧ (fireDue s now).1.searchDeadline = some d
    ∧ (fireDue s now).1.query = s.query := by
  unfold fireDue
  rw [fireDueSearch_wait s now d hd h]
  refine ⟨rfl, ?_, ?_⟩
  · rw [(fireDueScroll_fields s now).1, hd]
  · exact (fireDueScroll_fields s now).2.1

lemma fireDue_selectedIndex (s : AppState) (now : Nat) :
    (fireDue s now).1.selectedIndex = s.selectedIndex := by
  unfold fireDue
  show (fireDueScroll (fireDueSearch s now).1 now).selectedIndex = s.selectedIndex
  rw [(fireDueScroll_fields _ now).2.2.1, (fireDueSearch_fields s now).2.2.1]

lemma fireDue_keep_scroll (s : AppState) (now dd : Nat) (hd : s.scrollDeadline = some dd)
    (h : ¬ dd < now) :
    (fireDue s now).1.isMouseScrolling = s.isMouseScrolling := by
  unfold fireDue
  show (fireDueScroll (fireDueSearch s now).1 now).isMouseScrolling = s.isMouseScrolling
  have hsd : (fireDueSearch s now).1.scrollDeadline = some dd := by
    rw [(fireDueSearch_fields s now).1, hd]
  rw [fireDueScroll_keep _ now dd hsd h]
  exact (fireDueSearch_fields s now).2.1

lemma fireDue_fire_scroll (s : AppState) (now dd : Nat) (hd : s.scrollDeadline = some dd)
    (h : dd < now) :
    (fireDue s now).1.isMouseScrolling = false := by
  unfold fireDue
  show (fireDueScroll (fireDueSearch s now).1 now).isMouseScrolling = false
  have hsd : (fireDueSearch s now).1.scrollDeadline = some dd := by
    rw [(fireDueSearch_fields s now).1, hd]
  rw [fireDueScroll_fire _ now dd hsd h]

lemma flushTimers_calls (s : AppState) (d : Nat) (hd : s.searchDeadline = some d) :
    (flushTimers s).2 = [(s.latestSearchId + 1, s.query)] := by
  show (flushSearch s).2 = _
  unfold flushSearch
  rw [hd]
  rfl

/-! ### C3 — debounce coalescing -/

/-- The debounce invariant: while a burst is in progress (a pending debounce
deadline 100 ms after the previous keystroke, and every further keystroke
arriving within 100 ms of its predecessor), no search call is issued, and at
the end of the burst the pending deadline and the query are those of the
last keystroke. -/
lemma c3_aux : ∀ (evs : List (Nat × String)) (s : AppState) (tprev : Nat) (qprev : String),
    s.query = qprev →
    s.searchDeadline = some (tprev + 100) →
    List.Chain' (fun a b => a.1 < b.1 ∧ b.1 < a.1 + 100) ((tprev, qprev) :: evs) →
    (runTimed s (evs.map fun p => (p.1, TEvent.input p.2))).2 = []
    ∧ (runTimed s (evs.map fun p => (p.1, TEvent.input p.2))).1.searchDeadline
        = some ((((tprev, qprev) :: evs).getLast (List.cons_ne_nil _ _)).1 + 100)
    ∧ (runTimed s (evs.map fun p => (p.1, TEvent.input p.2))).1.query
        = (((tprev, qprev) :: evs).getLast (List.cons_ne_nil _ _)).2 := by
  intro evs
  induction evs with
  | nil =>
      intro s tprev qprev hq hd hch
      refine ⟨rfl, ?_, ?_⟩ <;> simp [runTimed, hd, hq]
  | cons e rest ih =>
      intro s tprev qprev hq hd hch
      obtain ⟨e1, e2⟩ := e
      rw [List.chain'_cons] at hch
      obtain ⟨⟨hlt, hgap⟩, hch2⟩ := hch
      have hfd := fireDue_no_search s e1 (tprev + 100) hd (by omega)
      have haux := ih (handleInput { (fireDue s e1).1 with query := e2 } e1) e1 e2 rfl rfl hch2
      have hstep : runTimed s (((e1, e2) :: rest).map fun p => (p.1, TEvent.input p.2))
          = ((runTimed (handleInput { (fireDue s e1).1 with query := e2 } e1)
                (rest.map fun p => (p.1, TEvent.input p.2))).1,
             (fireDue s e1).2
               ++ (runTimed (handleInput { (fireDue s e1).1 with query := e2 } e1)
                    (rest.map fun p => (p.1, TEvent.input p.2))).2) := rfl
      rw [hstep]
      refine ⟨?_, ?_, ?_⟩
      · show (fireDue s e1).2 ++ _ = []
        rw [hfd.1, haux.1]
        rfl
      · show _ = some ((((tprev, qprev) :: (e1, e2) :: rest).getLast (List.cons_ne_nil _ _)).1 + 100)
        rw [List.getLast_cons (List.cons_ne_nil _ _)]
        exact haux.2.1
      · show _ = (((tprev, qprev) :: (e1, e2) :: rest).getLast (List.cons_ne_nil _ _)).2
        rw [List.getLast_cons (List.cons_ne_nil _ _)]
        exact haux.2.2

/-- C3: every raw input change replaces the pending debounce deadline with a
fresh one 100 ms out; and a burst of keystrokes whose inter-arrival gaps are
all below the 100 ms quiet period issues no search call during the burst and
exactly one when the surviving timer fires — carrying the query value
current at fire time, namely the final value of the burst. -/
theorem c3_debounce (s0 : AppState) (evs : List (Nat × String))
    (h0 : s0.searchDeadline = none) (hne : evs ≠ [])
    (hgap : List.Chain' (fun a b => a.1 < b.1 ∧ b.1 < a.1 + 100) evs) :
    (∀ (s : AppState) (now : Nat) (q : String),
      (stepTimed s now (.input q)).1.searchDeadline = some (now + 100))
    ∧ (runTimed s0 (evs.map fun p => (p.1, TEvent.input p.2))).2 = []
    ∧ (flushTimers (runTimed s0 (evs.map fun p => (p.1, TEvent.input p.2))).1).2.map Prod.snd
        = [(evs.getLast hne).2] := by
  refine ⟨fun s now q => rfl, ?_⟩
  rcases evs with _ | ⟨⟨t1, q1⟩, rest⟩
  · exact absurd rfl hne
  · have hfd0 := fireDue_none s0 t1 h0
    have haux := c3_aux rest (handleInput { (fireDue s0 t1).1 with query := q1 } t1) t1 q1
      rfl rfl hgap
    have hstep : runTimed s0 (((t1, q1) :: rest).map fun p => (p.1, TEvent.input p.2))
        = ((runTimed (handleInput { (fireDue s0 t1).1 with query := q1 } t1)
              (rest.map fun p => (p.1, TEvent.input p.2))).1,
           (fireDue s0 t1).2
             ++ (runTimed (handleInput { (fireDue s0 t1).1 with query := q1 } t1)
                  (rest.map fun p => (p.1, TEvent.input p.2))).2) := rfl
    rw [hstep]
    constructor
    · show (fireDue s0 t1).2 ++ _ = []
      rw [hfd0, haux.1]
      rfl
    · rw [flushTimers_calls _ _ haux.2.1]
      simp only [List.map_cons, List.map_nil]
      rw [haux.2.2]

/-- Witness for C3: the three-keystroke burst `burstQ` (gaps 50 ms and
70 ms) issues no call during the burst and exactly one call, for the final
query `"abc"`, when the surviving timer fires. -/
theorem c3_debounce_witness :
    (runTimed initState (burstQ.map fun p => (p.1, TEvent.input p.2))).2 = []
    ∧ (flushTimers
        (runTimed initState (burstQ.map fun p => (p.1, TEvent.input p.2))).1).2.map Prod.snd
      = ["abc"] := by
  have h := c3_debounce initState burstQ rfl (by decide)
    (by norm_num [burstQ, List.chain'_cons])
  refine ⟨h.2.1, ?_⟩
  rw [h.2.2]
  decide

/-! ### C5 — mouse suppression window -/

/-- C5: a scroll event restarts the suppression window (it sets
`isMouseScrolling` and re-schedules the reset timer 150 ms out); a
hover-motion event over row `i` arriving at or before 150 ms after the last
scroll leaves the selection unchanged, whatever the motion; and the same
hover event arriving after the window has elapsed, with genuine non-zero
motion, moves the selection to row `i`. -/
theorem c5_mouse_suppression :
    (∀ (s : AppState) (now : Nat),
      (stepTimed s now .scroll).1.isMouseScrolling = true
      ∧ (stepTimed s now .scroll).1.scrollDeadline = some (now + 150))
    ∧ (∀ (s0 : AppState) (ts τ i : Nat) (mx my : Int),
        ts ≤ τ → τ ≤ ts + 150 →
        (runTimed s0 [(ts, .scroll), (τ, .mouseMove i mx my)]).1.selectedIndex
          = s0.selectedIndex)
    ∧ (∀ (s0 : AppState) (ts τ i : Nat) (mx my : Int),
        ts + 150 < τ → ¬(mx = 0 ∧ my = 0) →
        (runTimed s0 [(ts, .scroll), (τ, .mouseMove i mx my)]).1.selectedIndex = i) := by
  refine ⟨fun s now => ⟨rfl, rfl⟩, ?_, ?_⟩
  · intro s0 ts τ i mx my hts hwin
    have hrun : (runTimed s0 [(ts, .scroll), (τ, .mouseMove i mx my)]).1
        = handleMouseMove (fireDue (handleListScroll (fireDue s0 ts).1 ts) τ).1 i mx my := rfl
    have hkeep : (fireDue (handleListScroll (fireDue s0 ts).1 ts) τ).1.isMouseScrolling
        = (handleListScroll (fireDue s0 ts).1 ts).isMouseScrolling :=
      fireDue_keep_scroll _ τ (ts + 150) rfl (by omega)
    have hmm : handleMouseMove (fireDue (handleListScroll (fireDue s0 ts).1 ts) τ).1 i mx my
        = (fireDue (handleListScroll (fireDue s0 ts).1 ts) τ).1 := by
      unfold handleMouseMove
      rw [hkeep]
      rfl
    rw [hrun, hmm, fireDue_selectedIndex]
    show (fireDue s0 ts).1.selectedIndex = s0.selectedIndex
    exact fireDue_selectedIndex s0 ts
  · intro s0 ts τ i mx my hwin hmv
    have hrun : (runTimed s0 [(ts, .scroll), (τ, .mouseMove i mx my)]).1
        = handleMouseMove (fireDue (handleListScroll (fireDue s0 ts).1 ts) τ).1 i mx my := rfl
    have hfire : (fireDue (handleListScroll (fireDue s0 ts).1 ts) τ).1.isMouseScrolling = false :=
      fireDue_fire_scroll _ τ (ts + 150) rfl hwin
    have hmm : handleMouseMove (fireDue (handleListScroll (fireDue s0 ts).1 ts) τ).1 i mx my
        = { (fireDue (handleListScroll (fireDue s0 ts).1 ts) τ).1 with
              selectedIndex := i, isKeyboardSelection := false } := by
      simp [handleMouseMove, hfire, hmv]
    rw [hrun, hmm]

/-- Witness for C5: from `exNav` (selection 1), a scroll at 0 ms followed by
a hover over row 2 at 100 ms leaves the selection at 1; the same hover at
200 ms moves it to 2; and the scroll itself restarts the window. -/
theorem c5_mouse_suppression_witness :
    (stepTimed exNav 0 .scroll).1.scrollDeadline = some 150
    ∧ (runTimed exNav [(0, .scroll), (100, .mouseMove 2 1 0)]).1.selectedIndex = 1
    ∧ (runTimed exNav [(0, .scroll), (200, .mouseMove 2 1 0)]).1.selectedIndex = 2 := by
  refine ⟨(c5_mouse_suppression.1 exNav 0).2, ?_,
    c5_mouse_suppression.2.2 exNav 0 200 2 1 0 (by decide) (by decide)⟩
  rw [c5_mouse_suppression.2.1 exNav 0 100 2 1 0 (by decide) (by decide)]
  decide

end Omnibox

